import Mathlib

/-!
Verification of the Podman AI Lab inference adapter
(`src/podman_ai_lab_stack/podman_ai_lab.py`) against its specification.

The adapter translates host-normalized inference requests into the wire
parameters of an Ollama-compatible transport.  The embedding below mirrors
the data shapes and the marshaling code of the adapter; host utilities that
live outside this repository (sampling-option translation, prompt rendering,
image-URL resolution, transport materialization) are modelled from the
specification and marked as such in their doc comments.
-/

namespace PodmanAILab

/-- An interleaved content item (host content type): text or an image. -/
inductive ContentItem where
  | text (s : String)
  | image (url : String)
deriving DecidableEq, Repr

/-- Interleaved content of a message: a single item or a list of items,
mirroring `InterleavedContent` (a bare string is `single (text s)`). -/
inductive MessageContent where
  | single (c : ContentItem)
  | list (cs : List ContentItem)
deriving DecidableEq, Repr

/-- A host chat message: a role tag and interleaved content. -/
structure Message where
  role : String
  content : MessageContent
deriving DecidableEq, Repr

/-- Whether a content item is media (an image). -/
def ContentItem.isMedia : ContentItem → Bool
  | .text _ => false
  | .image _ => true

/-- Whether interleaved content holds any media item. -/
def MessageContent.hasMedia : MessageContent → Bool
  | .single c => c.isMedia
  | .list cs => cs.any ContentItem.isMedia

/-- A response-format constraint: a JSON schema (payload kept opaque as a
string), a grammar, or any other kind tagged by its type name. -/
inductive ResponseFormat where
  | json_schema (schema : String)
  | grammar
  | other (ty : String)
deriving DecidableEq, Repr

/-- A sampling-options mapping: ordered string-keyed association list,
mirroring the Python dict produced by the option translation of the host. -/
abbrev Options := List (String × Int)

/-- Python `o.get(k)`: the value at the first occurrence of key `k`, or
`none` when absent. -/
def dictGet (o : Options) (k : String) : Option Int :=
  match o with
  | [] => none
  | (k2, v2) :: t => if k = k2 then some v2 else dictGet t k

/-- Replace every pair keyed `k` by `(k, v)`, keeping positions (dict keys
are unique, so at most one pair is replaced). -/
def dictReplace (o : Options) (k : String) (v : Int) : Options :=
  match o with
  | [] => []
  | (k2, v2) :: t =>
    if k2 = k then (k, v) :: dictReplace t k v else (k2, v2) :: dictReplace t k v

/-- Python dict assignment `o[k] = v`: replace the value in place when the
key is present, append the pair otherwise. -/
def dictSet (o : Options) (k : String) (v : Int) : Options :=
  if (dictGet o k).isSome then
    dictReplace o k v
  else
    o ++ [(k, v)]

/-- A host chat-completion request (the fields `_get_params` reads).
`sampling_params` carries the wire options mapping produced by
`get_sampling_options`, a host utility external to this repository. -/
structure ChatCompletionRequest where
  model : String
  messages : List Message
  sampling_params : Options
  response_format : Option ResponseFormat
  stream : Bool
deriving DecidableEq, Repr

/-- A host raw-completion request (the fields `_get_params` reads). -/
structure CompletionRequest where
  model : String
  content : MessageContent
  sampling_params : Options
  response_format : Option ResponseFormat
  stream : Bool
deriving DecidableEq, Repr

/-- The `Union[ChatCompletionRequest, CompletionRequest]` argument of
`_get_params`. -/
inductive Request where
  | chat (r : ChatCompletionRequest)
  | completion (r : CompletionRequest)
deriving DecidableEq, Repr

/-- `request.model` on either request kind. -/
def Request.model : Request → String
  | .chat r => r.model
  | .completion r => r.model

/-- `request.sampling_params` on either request kind. -/
def Request.sampling_params : Request → Options
  | .chat r => r.sampling_params
  | .completion r => r.sampling_params

/-- `request.response_format` on either request kind. -/
def Request.response_format : Request → Option ResponseFormat
  | .chat r => r.response_format
  | .completion r => r.response_format

/-- `request.stream` on either request kind. -/
def Request.stream : Request → Bool
  | .chat r => r.stream
  | .completion r => r.stream

/-- Modelled from the spec: `request_has_media` is a host utility (external
to this repository) reporting whether any message or content item of the
request carries media (image) content. -/
def request_has_media : Request → Bool
  | .chat r => r.messages.any (fun m => m.content.hasMedia)
  | .completion r => r.content.hasMedia

/-- Modelled from the spec: `get_sampling_options` is a host utility
(external to this repository) translating host sampling parameters into a
wire options mapping; requests here carry its output directly, so the
translation is the identity on that mapping. -/
def get_sampling_options (sampling_params : Options) : Options :=
  sampling_params

/-- Modelled from the spec: `convert_image_content_to_url` is a host utility
(external to this repository) resolving an image content item to a fetchable
URL; modelled as returning the stored URL. -/
def convert_image_content_to_url (url : String) : String :=
  url

/-- One wire chat entry produced by
`convert_message_to_openai_dict_for_podman_ai_lab`: either a role plus a
text `content` field, or a role plus an `images` list (no text field). -/
inductive WireEntry where
  | textEntry (role : String) (content : String)
  | imageEntry (role : String) (images : List String)
deriving DecidableEq, Repr

/-- The inner `_convert_content` of
`convert_message_to_openai_dict_for_podman_ai_lab`: an image item becomes a
role-tagged `images` entry via URL resolution; any other content is treated
as text and becomes a role-tagged `content` entry. -/
def convert_content (role : String) : ContentItem → WireEntry
  | .image url => .imageEntry role [convert_image_content_to_url url]
  | .text s => .textEntry role s

/-- `convert_message_to_openai_dict_for_podman_ai_lab`: list content expands
to one wire entry per item; scalar content yields a single entry. -/
def convert_message_to_openai_dict_for_podman_ai_lab (m : Message) : List WireEntry :=
  match m.content with
  | .list cs => cs.map (convert_content m.role)
  | .single c => [convert_content m.role c]

/-- Text of one content item, used by the prompt-rendering models below. -/
def ContentItem.promptText : ContentItem → String
  | .text s => s
  | .image url => url

/-- Flattened text of interleaved content. -/
def MessageContent.promptText : MessageContent → String
  | .single c => c.promptText
  | .list cs => String.join (cs.map ContentItem.promptText)

/-- Modelled from the spec: `chat_completion_request_to_prompt` is a host
utility (external to this repository) flattening a chat request into a
single prompt string for the given model; modelled as the concatenation of
the role and text of each message. -/
def chat_completion_request_to_prompt (r : ChatCompletionRequest) (model : String) : String :=
  model ++ String.join (r.messages.map (fun m => m.role ++ ": " ++ m.content.promptText))

/-- Modelled from the spec: `completion_request_to_prompt` is a host utility
(external to this repository) flattening raw-completion content into a
single prompt string; modelled as the flattened text of the content. -/
def completion_request_to_prompt (r : CompletionRequest) : String :=
  r.content.promptText

/-- The Python exceptions `_get_params` and its callers can raise. -/
inductive PodmanError where
  | assertionError (msg : String)
  | notImplementedError (msg : String)
  | valueError (msg : String)
  | runtimeError (msg : String)
deriving DecidableEq, Repr

/-- The `input_dict` accumulated inside `_get_params` before the final
params mapping is assembled. -/
structure InputDict where
  raw : Option Bool := none
  prompt : Option String := none
  messages : Option (List WireEntry) := none
deriving DecidableEq, Repr

/-- The wire-parameter mapping `_get_params` returns: `model`, exactly the
keys set in `input_dict` (`prompt`/`raw`/`messages`), optionally `format`,
the (possibly remapped) `options`, and `stream`.  Absent dict keys are
`none`. -/
structure WireParams where
  model : String
  raw : Option Bool := none
  prompt : Option String := none
  messages : Option (List WireEntry) := none
  format : Option String := none
  options : Options
  stream : Bool
deriving DecidableEq, Repr

/-- The `max_tokens` remap at the top of `_get_params`: when the sampling
options contain `max_tokens`, its value is assigned to `num_predict` (the
Ollama early-truncation name) by dict assignment; nothing is deleted. -/
def remap_max_tokens (sampling_options : Options) : Options :=
  match dictGet sampling_options "max_tokens" with
  | some v => dictSet sampling_options "num_predict" v
  | none => sampling_options

/-- The `input_dict` construction of `_get_params`: a chat request whose
messages carry media, or whose model name is falsy (empty), is marshaled as
a flattened list of wire message entries; otherwise a chat request becomes
`raw=true` plus a rendered prompt.  A raw completion asserts the absence of
media, then becomes `prompt` plus `raw=true`. -/
def build_input_dict (request : Request) : Except PodmanError InputDict :=
  let media_present := request_has_media request
  let llama_model := request.model
  match request with
  | .chat r =>
    if media_present || llama_model = "" then
      .ok { messages :=
              some ((r.messages.map convert_message_to_openai_dict_for_podman_ai_lab).flatten) }
    else
      .ok { raw := some true,
            prompt := some (chat_completion_request_to_prompt r llama_model) }
  | .completion r =>
    if media_present then
      .error (.assertionError "Ollama does not support media for Completion requests")
    else
      .ok { prompt := some (completion_request_to_prompt r), raw := some true }

/-- `_get_params`: translates a request into the transport wire parameters —
the `max_tokens` → `num_predict` copy, the `input_dict` construction, the
response-format handling (`json_schema` stored in `format`, `grammar`
raising `NotImplementedError`, anything else raising `ValueError`), and the
final params assembly `{model, **input_dict, options, stream}`. -/
def _get_params (request : Request) : Except PodmanError WireParams :=
  let sampling_options := remap_max_tokens (get_sampling_options request.sampling_params)
  match build_input_dict request with
  | .error e => .error e
  | .ok input_dict =>
    match request.response_format with
    | some (.json_schema schema) =>
      .ok { model := request.model, raw := input_dict.raw, prompt := input_dict.prompt,
            messages := input_dict.messages, format := some schema,
            options := sampling_options, stream := request.stream }
    | some .grammar =>
      .error (.notImplementedError "Grammar response format is not supported")
    | some (.other ty) =>
      .error (.valueError ("Unknown response format type: " ++ ty))
    | none =>
      .ok { model := request.model, raw := input_dict.raw, prompt := input_dict.prompt,
            messages := input_dict.messages, format := none,
            options := sampling_options, stream := request.stream }

/-- One transport response (or streamed chunk) of the raw-completion wire
shape `{done, done_reason, response}`.  `done_reason` is read only when
`done` is set. -/
structure GenChunk where
  done : Bool
  done_reason : String
  response : String
deriving DecidableEq, Repr

/-- The normalized choice the adapter builds from a transport response:
`finish_reason = done_reason if done else None`, `text = response`.  This is
the conversion applied to each streamed chunk in `_stream_completion` and to
the single materialized response in `_nonstream_completion`. -/
structure OpenAICompatCompletionChoice where
  finish_reason : Option String
  text : String
deriving DecidableEq, Repr

/-- The per-response conversion shared by `_stream_completion` (lines
128–131) and `_nonstream_completion` (lines 144–147). -/
def chunk_to_choice (c : GenChunk) : OpenAICompatCompletionChoice :=
  { finish_reason := if c.done then some c.done_reason else none,
    text := c.response }

/-- Modelled from the spec: the non-streaming materialization done by the transport of
the same underlying response sequence — its text is the concatenation of the
chunk texts and its `done`/`done_reason` come from the final chunk (the
transport library performing this accumulation is external to this
repository). -/
def materialize (chunks : List GenChunk) : GenChunk :=
  { done := (chunks.getLast?.elim true GenChunk.done),
    done_reason := (chunks.getLast?.elim "" GenChunk.done_reason),
    response := String.join (chunks.map GenChunk.response) }

/-- `_nonstream_completion` over an abstract transport: build wire params
with `_get_params` (propagating its errors), issue one generate call, and
wrap the response in a normalized choice.  The transport is a parameter so
that theorems can show errors occur before any transport request. -/
def _nonstream_completion (transport : WireParams → GenChunk)
    (r : CompletionRequest) : Except PodmanError OpenAICompatCompletionChoice :=
  match _get_params (.completion r) with
  | .error e => .error e
  | .ok params => .ok (chunk_to_choice (transport params))

/-- `_stream_completion` over an abstract streaming transport: build wire
params with `_get_params` (propagating its errors), issue one generate call,
and wrap each streamed chunk in a normalized choice. -/
def _stream_completion (transport : WireParams → List GenChunk)
    (r : CompletionRequest) : Except PodmanError (List OpenAICompatCompletionChoice) :=
  match _get_params (.completion r) with
  | .error e => .error e
  | .ok params => .ok ((transport params).map chunk_to_choice)

/-- Outcome of the single `client.list()` connectivity probe issued by
`initialize`: either the model list, or a connection error. -/
inductive ProbeResult where
  | ok (models : List String)
  | connectionError
deriving DecidableEq, Repr

/-- The startup method of the adapter (named `initialize` in the source; that
name is reserved in Lean): issues exactly one connectivity probe (it
consumes one probe outcome and has no retry path); a connection error is
re-raised as a fatal `RuntimeError` telling the operator to start the
service, so the adapter never becomes usable. -/
def adapterInit (probe : ProbeResult) : Except PodmanError Unit :=
  match probe with
  | .ok _ => .ok ()
  | .connectionError =>
      .error (.runtimeError "Podman AI Lab Server is not running, start it using Podman Desktop")

/-- Host text-truncation policy for embeddings (host-defined enum). -/
inductive TextTruncation where
  | none | start | «end»
deriving DecidableEq, Repr

/-- Host embedding task type (host-defined enum). -/
inductive EmbeddingTaskType where
  | query | document
deriving DecidableEq, Repr

/-- Host embeddings response shape (never constructed by this adapter). -/
structure EmbeddingsResponse where
  embeddings : List (List Int)
deriving DecidableEq, Repr

/-- `embeddings`: unconditionally raises `NotImplementedError`, regardless
of every argument. -/
def embeddings (model_id : String) (contents : List MessageContent)
    (text_truncation : Option TextTruncation)
    (output_dimension : Option Nat)
    (task_type : Option EmbeddingTaskType) : Except PodmanError EmbeddingsResponse :=
  .error (.notImplementedError "embeddings endpoint is not implemented")

/-- Whether a response format passes the format handling of `_get_params`
without raising (absent or `json_schema`). -/
def format_accepted : Option ResponseFormat → Bool
  | none => true
  | some (.json_schema _) => true
  | some .grammar => false
  | some (.other _) => false

/-- Whether a request reaches the response-format handling of `_get_params`
(chat requests always do; raw completions must clear the media assertion
first). -/
def format_reachable : Request → Bool
  | .chat _ => true
  | .completion r => !r.content.hasMedia

/-- A text-only chat request with a non-empty model name. -/
def exChatModel : ChatCompletionRequest :=
  { model := "llama3",
    messages := [{ role := "user", content := .single (.text "hi") }],
    sampling_params := [("max_tokens", 5)],
    response_format := none,
    stream := false }

/-- The same text-only chat request with an empty (falsy) model name. -/
def exChatNoModel : ChatCompletionRequest :=
  { exChatModel with model := "" }

/-- A text-only raw completion request carrying a `max_tokens` option. -/
def exCompletionText : CompletionRequest :=
  { model := "m",
    content := .single (.text "hi"),
    sampling_params := [("max_tokens", 5)],
    response_format := none,
    stream := false }

/-- A raw completion request carrying image (media) content. -/
def exCompletionImage : CompletionRequest :=
  { model := "m",
    content := .single (.image "http://example.com/cat.png"),
    sampling_params := [],
    response_format := none,
    stream := false }

/-- A streaming text-only raw completion request. -/
def exCompletionStream : CompletionRequest :=
  { model := "m",
    content := .single (.text "hi"),
    sampling_params := [],
    response_format := none,
    stream := true }

/-- A two-chunk transport response sequence ending in a done chunk. -/
def exChunks : List GenChunk :=
  [{ done := false, done_reason := "", response := "Hel" },
   { done := true, done_reason := "stop", response := "lo" }]

/-- A text-only chat request carrying a `json_schema` response format. -/
def exChatSchema : ChatCompletionRequest :=
  { exChatModel with response_format := some (.json_schema "schema1") }

/-- The wire parameters `_get_params` produces for `exCompletionText`. -/
def exParamsText : WireParams :=
  { model := "m", raw := some true, prompt := some "hi", messages := none,
    format := none, options := [("max_tokens", 5), ("num_predict", 5)],
    stream := false }

/-- The wire parameters `_get_params` produces for `exCompletionStream`. -/
def exParamsStream : WireParams :=
  { model := "m", raw := some true, prompt := some "hi", messages := none,
    format := none, options := [], stream := true }

/-- A one-shot transport returning a single done response. -/
def exTransportOne : WireParams → GenChunk :=
  fun _ => { done := true, done_reason := "stop", response := "Hello" }

/-- A streaming transport returning `exChunks` for every request. -/
def exTransportStream : WireParams → List GenChunk :=
  fun _ => exChunks

theorem dictGet_replace_self (o : Options) (k : String) (v : Int)
    (h : (dictGet o k).isSome) :
    dictGet (dictReplace o k v) k = some v := by
  induction o with
  | nil => simp [dictGet] at h
  | cons a t ih =>
    obtain ⟨k2, v2⟩ := a
    by_cases hk : k2 = k
    · simp [dictGet, dictReplace, hk]
    · have hk2 : ¬(k = k2) := fun hh => hk hh.symm
      simp only [dictGet, dictReplace, if_neg hk, if_neg hk2] at h ⊢
      exact ih h

theorem dictGet_append_single (o : Options) (k : String) (v : Int)
    (h : dictGet o k = none) :
    dictGet (o ++ [(k, v)]) k = some v := by
  induction o with
  | nil => simp [dictGet]
  | cons a t ih =>
    obtain ⟨k2, v2⟩ := a
    by_cases hk : k = k2
    · simp [dictGet, hk] at h
    · simp only [dictGet, if_neg hk, List.cons_append] at h ⊢
      exact ih h

theorem dictGet_set_self (o : Options) (k : String) (v : Int) :
    dictGet (dictSet o k v) k = some v := by
  unfold dictSet
  by_cases h : (dictGet o k).isSome
  · rw [if_pos h]
    exact dictGet_replace_self o k v h
  · rw [if_neg h]
    exact dictGet_append_single o k v (by
      cases hg : dictGet o k with
      | none => rfl
      | some w => rw [hg] at h; simp at h)

theorem dictGet_replace_ne (o : Options) (k k2 : String) (v : Int)
    (hne : ¬(k2 = k)) :
    dictGet (dictReplace o k v) k2 = dictGet o k2 := by
  induction o with
  | nil => simp [dictReplace]
  | cons a t ih =>
    obtain ⟨ka, va⟩ := a
    by_cases hk : ka = k
    · simp [dictGet, dictReplace, hk, hne, ih]
    · by_cases hk2 : k2 = ka
      · simp [dictGet, dictReplace, hk, hk2]
      · simp [dictGet, dictReplace, hk, hk2, ih]

theorem dictGet_append_single_ne (o : Options) (k k2 : String) (v : Int)
    (hne : ¬(k2 = k)) :
    dictGet (o ++ [(k, v)]) k2 = dictGet o k2 := by
  induction o with
  | nil => simp [dictGet, hne]
  | cons a t ih =>
    obtain ⟨ka, va⟩ := a
    by_cases hk : k2 = ka
    · simp [dictGet, hk]
    · simp [dictGet, hk, ih]

theorem dictGet_set_ne (o : Options) (k k2 : String) (v : Int)
    (hne : ¬(k2 = k)) :
    dictGet (dictSet o k v) k2 = dictGet o k2 := by
  unfold dictSet
  by_cases h : (dictGet o k).isSome
  · rw [if_pos h]
    exact dictGet_replace_ne o k k2 v hne
  · rw [if_neg h]
    exact dictGet_append_single_ne o k k2 v hne

theorem remap_num_predict (o : Options) (v : Int)
    (h : dictGet o "max_tokens" = some v) :
    dictGet (remap_max_tokens o) "num_predict" = some v := by
  unfold remap_max_tokens
  rw [h]
  exact dictGet_set_self o "num_predict" v

theorem remap_keeps_max_tokens (o : Options) (v : Int)
    (h : dictGet o "max_tokens" = some v) :
    dictGet (remap_max_tokens o) "max_tokens" = some v := by
  unfold remap_max_tokens
  rw [h, dictGet_set_ne o "num_predict" "max_tokens" v (by decide)]
  exact h

theorem build_input_dict_chat_empty_model (r : ChatCompletionRequest)
    (hmod : r.model = "") :
    build_input_dict (.chat r) =
      .ok { messages :=
              some ((r.messages.map convert_message_to_openai_dict_for_podman_ai_lab).flatten) } := by
  simp [build_input_dict, Request.model, hmod]

theorem build_input_dict_chat_prompt (r : ChatCompletionRequest)
    (hm : request_has_media (.chat r) = false) (hmod : ¬(r.model = "")) :
    build_input_dict (.chat r) =
      .ok { raw := some true,
            prompt := some (chat_completion_request_to_prompt r r.model) } := by
  simp [build_input_dict, Request.model, hm, hmod]

theorem build_input_dict_completion_media (r : CompletionRequest)
    (hm : r.content.hasMedia = true) :
    build_input_dict (.completion r) =
      .error (.assertionError "Ollama does not support media for Completion requests") := by
  simp [build_input_dict, request_has_media, hm]

theorem build_input_dict_completion_ok (r : CompletionRequest)
    (hm : r.content.hasMedia = false) :
    build_input_dict (.completion r) =
      .ok { prompt := some (completion_request_to_prompt r), raw := some true } := by
  simp [build_input_dict, request_has_media, hm]

theorem build_input_dict_shape (r : Request) (d : InputDict)
    (hbd : build_input_dict r = .ok d) :
    (d.prompt = none ∧ d.messages.isSome = true) ∨
      (d.prompt.isSome = true ∧ d.messages = none) := by
  cases r with
  | chat rc =>
    by_cases hc : request_has_media (.chat rc) || rc.model = ""
    · simp [build_input_dict, Request.model, hc] at hbd
      rw [← hbd]
      left
      exact ⟨rfl, rfl⟩
    · simp [build_input_dict, Request.model, hc] at hbd
      rw [← hbd]
      right
      exact ⟨rfl, rfl⟩
  | completion rc =>
    by_cases hm : rc.content.hasMedia
    · rw [build_input_dict_completion_media rc hm] at hbd
      exact absurd hbd (by simp)
    · rw [build_input_dict_completion_ok rc (by simpa using hm)] at hbd
      injection hbd with h
      rw [← h]
      right
      exact ⟨rfl, rfl⟩

theorem _get_params_ok_shape (r : Request) (p : WireParams)
    (hok : _get_params r = .ok p) :
    ∃ d, build_input_dict r = .ok d ∧ p.prompt = d.prompt ∧
      p.messages = d.messages ∧ p.raw = d.raw ∧
      p.options = remap_max_tokens (get_sampling_options r.sampling_params) := by
  unfold _get_params at hok
  cases hbd : build_input_dict r with
  | error e =>
    rw [hbd] at hok
    exact absurd hok (by simp)
  | ok d =>
    rw [hbd] at hok
    refine ⟨d, rfl, ?_⟩
    cases hf : r.response_format with
    | none =>
      rw [hf] at hok
      simp only at hok
      injection hok with h
      rw [← h]
      exact ⟨rfl, rfl, rfl, rfl⟩
    | some fmt =>
      cases fmt with
      | json_schema s =>
        rw [hf] at hok
        simp only at hok
        injection hok with h
        rw [← h]
        exact ⟨rfl, rfl, rfl, rfl⟩
      | grammar =>
        rw [hf] at hok
        exact absurd hok (by simp)
      | other ty =>
        rw [hf] at hok
        exact absurd hok (by simp)

theorem _get_params_error_of_build (r : Request) (e : PodmanError)
    (hbd : build_input_dict r = .error e) :
    _get_params r = .error e := by
  simp [_get_params, hbd]

theorem convert_text_only (m : Message) (hm : m.content.hasMedia = false) :
    ∀ e ∈ convert_message_to_openai_dict_for_podman_ai_lab m,
      ∃ role content, e = WireEntry.textEntry role content := by
  intro e he
  unfold convert_message_to_openai_dict_for_podman_ai_lab at he
  cases hc : m.content with
  | single c =>
    rw [hc] at he
    simp at he
    subst he
    cases c with
    | text s => exact ⟨m.role, s, rfl⟩
    | image u =>
      rw [hc] at hm
      simp [MessageContent.hasMedia, ContentItem.isMedia] at hm
  | list cs =>
    rw [hc] at he
    simp at he
    obtain ⟨c, hcmem, hce⟩ := he
    cases c with
    | text s =>
      rw [← hce]
      exact ⟨m.role, s, rfl⟩
    | image u =>
      rw [hc] at hm
      simp [MessageContent.hasMedia, List.any_eq_false] at hm
      have := hm (ContentItem.image u) hcmem
      simp [ContentItem.isMedia] at this

theorem flatten_singletons_length (ms : List Message)
    (hs : ∀ m ∈ ms, ∃ c, m.content = MessageContent.single c) :
    ((ms.map convert_message_to_openai_dict_for_podman_ai_lab).flatten).length
      = ms.length := by
  induction ms with
  | nil => simp
  | cons m t ih =>
    simp only [List.map_cons, List.flatten_cons, List.length_append, List.length_cons]
    obtain ⟨c, hc⟩ := hs m (by simp)
    have h1 : (convert_message_to_openai_dict_for_podman_ai_lab m).length = 1 := by
      unfold convert_message_to_openai_dict_for_podman_ai_lab
      rw [hc]
      rfl
    rw [h1, ih (fun m2 hm2 => hs m2 (by simp [hm2]))]
    omega

/-- Claim C2: for every chat request with no media content and a non-empty
(resolvable) model name whose response format passes the format handling,
`_get_params` returns wire parameters carrying `raw = true` and a single
flattened `prompt` string, and no `messages` list. -/
theorem chat_no_media_model_gives_raw_prompt (r : ChatCompletionRequest)
    (hm : request_has_media (.chat r) = false) (hmod : ¬(r.model = ""))
    (hfmt : format_accepted r.response_format = true) :
    ∃ p, _get_params (.chat r) = .ok p ∧ p.raw = some true ∧
      p.prompt = some (chat_completion_request_to_prompt r r.model) ∧
      p.messages = none := by
  have hbd := build_input_dict_chat_prompt r hm hmod
  cases hf : r.response_format with
  | none =>
    refine ⟨{ model := (Request.chat r).model, raw := some true,
              prompt := some (chat_completion_request_to_prompt r r.model),
              messages := none, format := none,
              options := remap_max_tokens
                (get_sampling_options (Request.chat r).sampling_params),
              stream := (Request.chat r).stream }, ?_, rfl, rfl, rfl⟩
    simp [_get_params, hbd, Request.response_format, hf]
  | some fmt =>
    cases fmt with
    | json_schema s =>
      refine ⟨{ model := (Request.chat r).model, raw := some true,
                prompt := some (chat_completion_request_to_prompt r r.model),
                messages := none, format := some s,
                options := remap_max_tokens
                  (get_sampling_options (Request.chat r).sampling_params),
                stream := (Request.chat r).stream }, ?_, rfl, rfl, rfl⟩
      simp [_get_params, hbd, Request.response_format, hf]
    | grammar =>
      rw [hf] at hfmt
      simp [format_accepted] at hfmt
    | other ty =>
      rw [hf] at hfmt
      simp [format_accepted] at hfmt

/-- Witness for C2 at a concrete text-only chat request with model
`llama3`. -/
theorem chat_no_media_model_gives_raw_prompt_witness :
    ∃ p, _get_params (.chat exChatModel) = .ok p ∧ p.raw = some true ∧
      p.prompt = some (chat_completion_request_to_prompt exChatModel exChatModel.model) ∧
      p.messages = none :=
  chat_no_media_model_gives_raw_prompt exChatModel rfl (by decide) rfl

/-- Claim C3: whenever the translated sampling options contain a
`max_tokens` value, the wire options mapping returned by `_get_params`
contains `num_predict` equal to that value. -/
theorem options_num_predict_from_max_tokens (r : Request) (p : WireParams) (v : Int)
    (hmt : dictGet (get_sampling_options r.sampling_params) "max_tokens" = some v)
    (hok : _get_params r = .ok p) :
    dictGet p.options "num_predict" = some v := by
  obtain ⟨d, hbd, hp, hmsg, hraw, hopts⟩ := _get_params_ok_shape r p hok
  rw [hopts]
  exact remap_num_predict _ v hmt

/-- Witness for C3 at a concrete completion request with
`max_tokens = 5`. -/
theorem options_num_predict_from_max_tokens_witness :
    dictGet exParamsText.options "num_predict" = some 5 :=
  options_num_predict_from_max_tokens (.completion exCompletionText) exParamsText 5 rfl rfl

/-- Counterexample for C4: at a concrete request whose options carry
`max_tokens = 5`, the options sent to the transport still contain the
`max_tokens` key — it is copied to `num_predict`, not renamed. -/
theorem options_max_tokens_still_present_cex :
    _get_params (.completion exCompletionText) = .ok exParamsText ∧
    dictGet exParamsText.options "max_tokens" = some 5 :=
  ⟨rfl, rfl⟩

/-- Claim C4 (amended): when the sampling options contain `max_tokens`, the
wire options gain `num_predict` carrying the value, and the original
`max_tokens` key remains present with the same value (the code copies the
value, it does not delete the old key). -/
theorem options_max_tokens_copied_to_num_predict (r : Request) (p : WireParams) (v : Int)
    (hmt : dictGet (get_sampling_options r.sampling_params) "max_tokens" = some v)
    (hok : _get_params r = .ok p) :
    dictGet p.options "num_predict" = some v ∧
    dictGet p.options "max_tokens" = some v := by
  obtain ⟨d, hbd, hp, hmsg, hraw, hopts⟩ := _get_params_ok_shape r p hok
  rw [hopts]
  exact ⟨remap_num_predict _ v hmt, remap_keeps_max_tokens _ v hmt⟩

/-- Witness for the amended C4 at a concrete completion request with
`max_tokens = 5`. -/
theorem options_max_tokens_copied_to_num_predict_witness :
    dictGet exParamsText.options "num_predict" = some 5 ∧
    dictGet exParamsText.options "max_tokens" = some 5 :=
  options_max_tokens_copied_to_num_predict (.completion exCompletionText) exParamsText 5 rfl rfl

/-- Claim C5: whenever `_get_params` returns wire parameters, exactly one of
`prompt` and `messages` is present — never both and never neither. -/
theorem wire_params_exactly_one_of_prompt_messages (r : Request) (p : WireParams)
    (hok : _get_params r = .ok p) :
    (p.prompt.isSome = true ∧ p.messages = none) ∨
      (p.prompt = none ∧ p.messages.isSome = true) := by
  obtain ⟨d, hbd, hp, hmsg, hraw, hopts⟩ := _get_params_ok_shape r p hok
  rcases build_input_dict_shape r d hbd with ⟨h1, h2⟩ | ⟨h1, h2⟩
  · right
    refine ⟨hp.trans h1, ?_⟩
    rw [hmsg]
    exact h2
  · left
    refine ⟨?_, hmsg.trans h2⟩
    rw [hp]
    exact h1

/-- Witness for C5 at a concrete completion request. -/
theorem wire_params_exactly_one_of_prompt_messages_witness :
    (exParamsText.prompt.isSome = true ∧ exParamsText.messages = none) ∨
      (exParamsText.prompt = none ∧ exParamsText.messages.isSome = true) :=
  wire_params_exactly_one_of_prompt_messages (.completion exCompletionText) exParamsText rfl

/-- Counterexample for C1: a chat request whose messages contain only text
content but whose model name is non-empty is marshaled with `raw = true`
and a `prompt` — `messages` is absent, contradicting the claim that every
text-only chat request yields a `messages` list. -/
theorem chat_text_only_messages_cex :
    request_has_media (.chat exChatModel) = false ∧
    _get_params (.chat exChatModel) =
      .ok { model := "llama3", raw := some true, prompt := some "llama3user: hi",
            messages := none, format := none,
            options := [("max_tokens", 5), ("num_predict", 5)], stream := false } :=
  ⟨rfl, rfl⟩

/-- Claim C1 (amended): a text-only chat request is marshaled as a
`messages` list (and no `prompt`) only when the model name is empty (the
branch is `media_present or not llama_model`); then the list has one entry
per text content item — hence one entry per message when every message
carries a single text content — and each entry is a role/content pair. -/
theorem chat_text_only_empty_model_messages (r : ChatCompletionRequest)
    (hm : request_has_media (.chat r) = false) (hmod : r.model = "")
    (hfmt : format_accepted r.response_format = true) :
    ∃ p, _get_params (.chat r) = .ok p ∧ p.prompt = none ∧
      p.messages =
        some ((r.messages.map convert_message_to_openai_dict_for_podman_ai_lab).flatten) ∧
      (∀ e ∈ (r.messages.map convert_message_to_openai_dict_for_podman_ai_lab).flatten,
        ∃ role content, e = WireEntry.textEntry role content) ∧
      ((∀ m ∈ r.messages, ∃ c, m.content = MessageContent.single c) →
        ((r.messages.map convert_message_to_openai_dict_for_podman_ai_lab).flatten).length
          = r.messages.length) := by
  have hbd := build_input_dict_chat_empty_model r hmod
  have htext : ∀ e ∈ (r.messages.map convert_message_to_openai_dict_for_podman_ai_lab).flatten,
      ∃ role content, e = WireEntry.textEntry role content := by
    intro e he
    rw [List.mem_flatten] at he
    obtain ⟨l, hl, hel⟩ := he
    rw [List.mem_map] at hl
    obtain ⟨m, hmm, hml⟩ := hl
    have hmed : m.content.hasMedia = false := by
      unfold request_has_media at hm
      rw [List.any_eq_false] at hm
      have := hm m hmm
      simpa using this
    rw [← hml] at hel
    exact convert_text_only m hmed e hel
  have hlen := fun hs => flatten_singletons_length r.messages hs
  cases hf : r.response_format with
  | none =>
    refine ⟨{ model := (Request.chat r).model, raw := none, prompt := none,
              messages := some
                ((r.messages.map convert_message_to_openai_dict_for_podman_ai_lab).flatten),
              format := none,
              options := remap_max_tokens
                (get_sampling_options (Request.chat r).sampling_params),
              stream := (Request.chat r).stream }, ?_, rfl, rfl, htext, hlen⟩
    simp [_get_params, hbd, Request.response_format, hf]
  | some fmt =>
    cases fmt with
    | json_schema s =>
      refine ⟨{ model := (Request.chat r).model, raw := none, prompt := none,
                messages := some
                  ((r.messages.map convert_message_to_openai_dict_for_podman_ai_lab).flatten),
                format := some s,
                options := remap_max_tokens
                  (get_sampling_options (Request.chat r).sampling_params),
                stream := (Request.chat r).stream }, ?_, rfl, rfl, htext, hlen⟩
      simp [_get_params, hbd, Request.response_format, hf]
    | grammar =>
      rw [hf] at hfmt
      simp [format_accepted] at hfmt
    | other ty =>
      rw [hf] at hfmt
      simp [format_accepted] at hfmt

/-- Witness for the amended C1 at a concrete text-only chat request with an
empty model name. -/
theorem chat_text_only_empty_model_messages_witness :
    ∃ p, _get_params (.chat exChatNoModel) = .ok p ∧ p.prompt = none ∧
      p.messages =
        some ((exChatNoModel.messages.map
          convert_message_to_openai_dict_for_podman_ai_lab).flatten) ∧
      (∀ e ∈ (exChatNoModel.messages.map
          convert_message_to_openai_dict_for_podman_ai_lab).flatten,
        ∃ role content, e = WireEntry.textEntry role content) ∧
      ((∀ m ∈ exChatNoModel.messages, ∃ c, m.content = MessageContent.single c) →
        ((exChatNoModel.messages.map
          convert_message_to_openai_dict_for_podman_ai_lab).flatten).length
          = exChatNoModel.messages.length) :=
  chat_text_only_empty_model_messages exChatNoModel rfl rfl rfl

/-- Claim C6: for every request that reaches the response-format handling,
a `json_schema` format is stored in the wire `format` field; a `grammar`
format raises `NotImplementedError` from `_get_params` (so before any
transport call); any other kind raises `ValueError` naming the offending
type. -/
theorem response_format_dispatch (r : Request) (h : format_reachable r = true) :
    (∀ s, r.response_format = some (.json_schema s) →
      ∃ p, _get_params r = .ok p ∧ p.format = some s) ∧
    (r.response_format = some .grammar →
      _get_params r = .error (.notImplementedError "Grammar response format is not supported")) ∧
    (∀ ty, r.response_format = some (.other ty) →
      _get_params r = .error (.valueError ("Unknown response format type: " ++ ty))) := by
  have hex : ∃ d, build_input_dict r = .ok d := by
    cases r with
    | chat rc =>
      simp only [build_input_dict, Request.model]
      split
      · exact ⟨_, rfl⟩
      · exact ⟨_, rfl⟩
    | completion rc =>
      have hmf : rc.content.hasMedia = false := by
        simp [format_reachable] at h
        exact h
      exact ⟨_, build_input_dict_completion_ok rc hmf⟩
  obtain ⟨d, hbd⟩ := hex
  refine ⟨?_, ?_, ?_⟩
  · intro s hf
    refine ⟨{ model := r.model, raw := d.raw, prompt := d.prompt,
              messages := d.messages, format := some s,
              options := remap_max_tokens (get_sampling_options r.sampling_params),
              stream := r.stream }, ?_, rfl⟩
    simp [_get_params, hbd, hf]
  · intro hf
    simp [_get_params, hbd, hf]
  · intro ty hf
    simp [_get_params, hbd, hf]

/-- Witness for C6 at a concrete chat request carrying a `json_schema`
response format. -/
theorem response_format_dispatch_witness :
    (∀ s, (Request.chat exChatSchema).response_format = some (.json_schema s) →
      ∃ p, _get_params (.chat exChatSchema) = .ok p ∧ p.format = some s) ∧
    ((Request.chat exChatSchema).response_format = some .grammar →
      _get_params (.chat exChatSchema) =
        .error (.notImplementedError "Grammar response format is not supported")) ∧
    (∀ ty, (Request.chat exChatSchema).response_format = some (.other ty) →
      _get_params (.chat exChatSchema) =
        .error (.valueError ("Unknown response format type: " ++ ty))) :=
  response_format_dispatch (.chat exChatSchema) rfl

/-- Claim C7: a raw completion request carrying media fails with the media
assertion during parameter construction, for every transport — the error is
raised before any transport request and no partial result is produced, on
both the non-streaming and the streaming path. -/
theorem completion_media_fails_before_transport
    (tr : WireParams → GenChunk) (st : WireParams → List GenChunk)
    (r : CompletionRequest) (hm : r.content.hasMedia = true) :
    _nonstream_completion tr r =
      .error (.assertionError "Ollama does not support media for Completion requests") ∧
    _stream_completion st r =
      .error (.assertionError "Ollama does not support media for Completion requests") := by
  have he := _get_params_error_of_build (.completion r) _
    (build_input_dict_completion_media r hm)
  constructor
  · simp [_nonstream_completion, he]
  · simp [_stream_completion, he]

/-- Witness for C7 at a concrete image-bearing completion request and
concrete transports. -/
theorem completion_media_fails_before_transport_witness :
    _nonstream_completion exTransportOne exCompletionImage =
      .error (.assertionError "Ollama does not support media for Completion requests") ∧
    _stream_completion exTransportStream exCompletionImage =
      .error (.assertionError "Ollama does not support media for Completion requests") :=
  completion_media_fails_before_transport exTransportOne exTransportStream
    exCompletionImage rfl

/-- Claim C8: the startup connectivity probe, when it fails with a
connection error, makes initialization raise the fatal runtime error
instructing the operator to start Podman AI Lab; the adapter consumes a
single probe outcome (no retry) and yields no usable value. -/
theorem init_connection_error_fatal :
    adapterInit .connectionError =
      .error (.runtimeError
        "Podman AI Lab Server is not running, start it using Podman Desktop") :=
  rfl

/-- Claim C9: given the same underlying transport response sequence, the
streaming path and the non-streaming path (whose transport materializes the
sequence) agree: the non-streaming text is the concatenation of the
streamed chunk texts, and the finish reason equals that of the final
streamed chunk. -/
theorem stream_nonstream_completion_equiv (st : WireParams → List GenChunk)
    (r : CompletionRequest) (p : WireParams)
    (hok : _get_params (.completion r) = .ok p) :
    ∃ choices choice,
      _stream_completion st r = .ok choices ∧
      _nonstream_completion (fun q => materialize (st q)) r = .ok choice ∧
      choice.text = String.join (choices.map OpenAICompatCompletionChoice.text) ∧
      (∀ last, (st p).getLast? = some last →
        choice.finish_reason = (chunk_to_choice last).finish_reason) := by
  refine ⟨(st p).map chunk_to_choice, chunk_to_choice (materialize (st p)),
    ?_, ?_, ?_, ?_⟩
  · simp [_stream_completion, hok]
  · simp [_nonstream_completion, hok]
  · simp only [chunk_to_choice, materialize, List.map_map]
    congr 1
  · intro last hlast
    simp [chunk_to_choice, materialize, hlast]

/-- Witness for C9 at a concrete streaming transport and request. -/
theorem stream_nonstream_completion_equiv_witness :
    ∃ choices choice,
      _stream_completion exTransportStream exCompletionStream = .ok choices ∧
      _nonstream_completion (fun q => materialize (exTransportStream q))
        exCompletionStream = .ok choice ∧
      choice.text = String.join (choices.map OpenAICompatCompletionChoice.text) ∧
      (∀ last, (exTransportStream exParamsStream).getLast? = some last →
        choice.finish_reason = (chunk_to_choice last).finish_reason) :=
  stream_nonstream_completion_equiv exTransportStream exCompletionStream
    exParamsStream rfl

/-- Claim C10: `embeddings` raises `NotImplementedError` on every input and
never returns a result. -/
theorem embeddings_always_not_implemented (model_id : String)
    (contents : List MessageContent) (tt : Option TextTruncation)
    (od : Option Nat) (task : Option EmbeddingTaskType) :
    embeddings model_id contents tt od task =
      .error (.notImplementedError "embeddings endpoint is not implemented") :=
  rfl

end PodmanAILab
